import Mathlib

set_option autoImplicit false

/-
Verification of the AVBPayloadSigner core (src/main.rs) against its
natural-language specification.

The repository is a thin driver around external collaborator libraries
(avbroot's payload writer and streaming copy, clap's argument parsing,
the crypto key loader).  The driver's own code — the `sign_payload`
operation loop and `main`'s ordering of key loading before output
creation — is embedded directly from src/main.rs.  Collaborators that
live outside this repository are modelled from the spec's boundary
contracts (sections 4.1, 4.3, 4.4, 6) and are marked as such in their
doc comments.

Machine integers: the manifest offsets and lengths are u64 in the
source; they are embedded as `Nat`, with the one place where u64 range
matters — `checked_add` on `data_offset + blob_offset` — modelled
explicitly against `U64_MAX`.
-/

namespace AVBPayloadSigner

/-- Maximum value of a Rust `u64`, used by `u64::checked_add`. -/
def U64_MAX : Nat := 2 ^ 64 - 1

/-- Modelled from the spec: a manifest operation of the container format
(avbroot's `InstallOperation`, outside this repository).  The driver reads
only the optional `data_offset` and `data_length` fields (src/main.rs lines
66 and 77); both are `u64` in the wire format, embedded as `Nat`. -/
structure InstallOperation where
  data_offset : Option Nat
  data_length : Option Nat
deriving Repr, DecidableEq

/-- Modelled from the spec: a partition of the manifest — a name and an
ordered list of operations (avbroot's `PartitionUpdate`, outside this
repository). -/
structure PartitionUpdate where
  partition_name : String
  operations : List InstallOperation
deriving Repr, DecidableEq

/-- Modelled from the spec: the manifest — an ordered list of partitions
(avbroot's `DeltaArchiveManifest`, outside this repository). -/
structure DeltaArchiveManifest where
  partitions : List PartitionUpdate
deriving Repr, DecidableEq

/-- Modelled from the spec: the parsed container header — the blob offset
marking where raw operation data begins, and the manifest (avbroot's
`PayloadHeader`, outside this repository).  Header ingestion (spec 4.1) is
modelled by taking the already-parsed header as input. -/
structure PayloadHeader where
  blob_offset : Nat
  manifest : DeltaArchiveManifest
deriving Repr, DecidableEq

/-- Modelled from the spec: the signing key is opaque to the driver; it is
only cloned and handed to the writer. -/
structure RsaPrivateKey where
  keyId : Nat
deriving Repr, DecidableEq

/-- Errors of a signing run, named after the spec's error taxonomy
(section 7).  `missingOffset pi oi` is the error built at src/main.rs line
80 and carries the partition and operation indices of its message. -/
inductive SignError where
  | missingOffset (pi oi : Nat)
  | shortRead
  | cancelled
deriving Repr, DecidableEq

/-- Mode in which a file is opened; `File::open` at src/main.rs line 50 is
read-only, `File::create` is write. -/
inductive FileMode where
  | readOnly
  | writeMode
deriving Repr, DecidableEq

/-- Observable effects of a signing run on the two streams.  The
constructors cover the effects the source file COULD suffer (including
writes and truncation) so that frame properties — the run never emits
them — are meaningful statements. -/
inductive Event where
  | openSource (m : FileMode)
  | seekSource (pos : Nat)
  | writeSourceBytes (pos : Nat) (bs : List Nat)
  | truncateSource
  | writeOutput (bs : List Nat)
deriving Repr, DecidableEq

/-- Modelled from the spec: the Streaming Copy Primitive (avbroot's
`stream::copy_n`, outside this repository; spec section 4.3).  It copies
exactly `n` bytes from `src` starting at `pos`, in chunks of `chunk`
bytes; before each chunk (byte index `i` with `i % chunk = 0`) it polls
the cancellation token for that chunk and aborts with `cancelled` if it
is set; if the source is exhausted before `n` bytes are read it fails
with `shortRead`.  It returns the bytes written to the destination so
far, paired with the error if one occurred. -/
def copy_n_go (chunk : Nat) (cancel : Nat → Bool) (src : List Nat) :
    Nat → Nat → Nat → List Nat × Option SignError
  | _, 0, _ => ([], none)
  | pos, n + 1, i =>
    if i % chunk == 0 && cancel (i / chunk) then
      ([], some SignError.cancelled)
    else
      match src.get? pos with
      | none => ([], some SignError.shortRead)
      | some b =>
        let r := copy_n_go chunk cancel src (pos + 1) n (i + 1)
        (b :: r.1, r.2)

/-- Modelled from the spec: entry point of the Streaming Copy Primitive. -/
def copy_n (chunk : Nat) (cancel : Nat → Bool) (src : List Nat)
    (pos n : Nat) : List Nat × Option SignError :=
  copy_n_go chunk cancel src pos n 0

/-- The cancellation token `sign_payload` hands to `copy_n`:
`Arc::new(AtomicBool::new(false))` at src/main.rs line 90 is freshly
created at the call site, starts unset, and no reference to it escapes
`sign_payload`; since the pipeline is single-threaded, every poll of the
token observes `false`. -/
def fresh_token : Nat → Bool := fun _ => false

/-- Embedding of `data_offset.and_then(|o| o.checked_add(blob_offset))`
from src/main.rs lines 77-79: `checked_add` yields `none` when the u64
sum would overflow. -/
def resolve_offset (data_offset : Option Nat) (blob_offset : Nat) : Option Nat :=
  data_offset.bind fun o =>
    if o + blob_offset ≤ U64_MAX then some (o + blob_offset) else none

/-- Result of processing a prefix of the operation list: effects emitted,
bytes handed to the writer, the source stream's read cursor, and the
error that stopped the loop, if any. -/
structure StepRes where
  events : List Event
  written : List Nat
  cursor : Nat
  err : Option SignError
deriving Repr, DecidableEq

/-- Embedding of one iteration of the `while payload_writer.begin_next_operation()`
loop body of `sign_payload` (src/main.rs lines 59-93): an operation with
no `data_length` is skipped (`continue`); otherwise the absolute source
offset is resolved with `checked_add` (error `missingOffset pi oi` if the
offset is absent or the addition overflows, before any effect), the
source is explicitly seeked to it, and `data_length` bytes are copied
from there into the writer with a freshly created cancellation token. -/
def processOp (chunk : Nat) (src : List Nat) (blob_offset : Nat)
    (pi oi : Nat) (op : InstallOperation) (cursor : Nat) : StepRes :=
  match op.data_length with
  | none => ⟨[], [], cursor, none⟩
  | some data_length =>
    match resolve_offset op.data_offset blob_offset with
    | none => ⟨[], [], cursor, some (SignError.missingOffset pi oi)⟩
    | some data_offset =>
      let c := copy_n chunk fresh_token src data_offset data_length
      ⟨[Event.seekSource data_offset, Event.writeOutput c.1], c.1,
        data_offset + c.1.length, c.2⟩

/-- The traversal order of `begin_next_operation`: partitions in manifest
order, operations within a partition in manifest order, each paired with
its `partition_index`, `operation_index` and `partition_name`.  The
writer iterates the same cloned header the driver indexes into, so the
operation exposed by the writer at `(pi, oi)` is
`manifest.partitions[pi].operations[oi]` (src/main.rs lines 72-75). -/
def flatOps (m : DeltaArchiveManifest) : List (Nat × Nat × String × InstallOperation) :=
  (m.partitions.enum.map fun pp =>
    pp.2.operations.enum.map fun oo => (pp.1, oo.1, pp.2.partition_name, oo.2)).flatten

/-- Embedding of the whole operation loop of `sign_payload`: fold
`processOp` over the remaining operations, stopping at the first error
(the `?` operator propagates it out of the loop, so no later operation is
processed). -/
def runOps (chunk : Nat) (src : List Nat) (blob_offset : Nat) :
    List (Nat × Nat × String × InstallOperation) → Nat → StepRes
  | [], cursor => ⟨[], [], cursor, none⟩
  | (pi, oi, _, op) :: rest, cursor =>
    let r := processOp chunk src blob_offset pi oi op cursor
    match r.err with
    | some e => ⟨r.events, r.written, r.cursor, some e⟩
    | none =>
      let r' := runOps chunk src blob_offset rest r.cursor
      ⟨r.events ++ r'.events, r.written ++ r'.written, r'.cursor, r'.err⟩

/-- Modelled from the spec: the Resigning Writer collaborator (avbroot's
`PayloadWriter`, outside this repository; spec section 4.4).  Constructed
from the cloned parsed header and the cloned key, it serializes the
output header/manifest, accepts streamed blob bytes, and on `finish`
appends the signature and returns the properties string and the metadata
size.  All four components are functions of the header, key and blob
bytes only — the spec's assumption that the signature scheme is
deterministic for a fixed message and key. -/
structure PayloadWriter where
  headerBytes : PayloadHeader → RsaPrivateKey → List Nat
  signatureBytes : RsaPrivateKey → List Nat → List Nat
  props : PayloadHeader → RsaPrivateKey → List Nat → String
  metadata_size : PayloadHeader → RsaPrivateKey → Nat

/-- Modelled from the spec: the writer re-serializes an equivalent
header/manifest for the output (spec section 4.4), built from the same
cloned header `PayloadWriter::new` received at src/main.rs line 56 — so
the output manifest holds exactly the input manifest's operations. -/
def output_manifest (header : PayloadHeader) : DeltaArchiveManifest :=
  header.manifest

/-- Result of a full `sign_payload` run: the effect trace, the blob bytes
handed to the writer, the bytes of the destination stream, and the
`Result<(String, u64)>` value. -/
structure RunResult where
  events : List Event
  written : List Nat
  out : List Nat
  result : Except SignError (String × Nat)

/-- Embedding of `sign_payload` (src/main.rs lines 45-100): open the
input read-only, parse the header (modelled as the given `header`), build
the writer from the cloned header and key (which writes the output
header), run the operation loop, and on success finish the writer, which
appends the signature and returns the properties string and metadata
size.  `extCancel` models the outside world's cancellation requests over
time (spec section 5); the code gives the outside world no reference to
its token, so the parameter reaches nothing. -/
def sign_payload_run (W : PayloadWriter) (chunk : Nat) (extCancel : Nat → Bool)
    (header : PayloadHeader) (src : List Nat) (key : RsaPrivateKey) : RunResult :=
  let _ := extCancel
  let r := runOps chunk src header.blob_offset (flatOps header.manifest) 0
  match r.err with
  | some e =>
    ⟨Event.openSource FileMode.readOnly :: r.events, r.written,
      W.headerBytes header key ++ r.written, Except.error e⟩
  | none =>
    ⟨Event.openSource FileMode.readOnly :: r.events, r.written,
      W.headerBytes header key ++ r.written ++ W.signatureBytes key r.written,
      Except.ok (W.props header key r.written, W.metadata_size header key)⟩

/-- The `Result<(String, u64)>` value `sign_payload` returns. -/
def sign_payload (W : PayloadWriter) (chunk : Nat) (extCancel : Nat → Bool)
    (header : PayloadHeader) (src : List Nat) (key : RsaPrivateKey) :
    Except SignError (String × Nat) :=
  (sign_payload_run W chunk extCancel header src key).result

/-- Modelled from the spec: the three passphrase sources of the key
loader collaborator (avbroot's `PassphraseSource`, outside this
repository).  Paths and environment-variable names are embedded as
strings. -/
inductive PassphraseSource where
  | envVar (v : String)
  | fromFile (p : String)
  | prompt (s : String)
deriving Repr, DecidableEq

/-- Embedding of the passphrase-source selection of `main` (src/main.rs
lines 108-114): the environment-variable option if supplied, else the
passphrase-file option if supplied, else an interactive prompt whose text
names the key file with `{:?}` (Debug) formatting, which quotes the
path. -/
def passphrase_source (pass_env_var : Option String) (pass_file : Option String)
    (key : String) : PassphraseSource :=
  match pass_env_var with
  | some v => PassphraseSource.envVar v
  | none =>
    match pass_file with
    | some p => PassphraseSource.fromFile p
    | none => PassphraseSource.prompt ("Enter passphrase for \"" ++ key ++ "\": ")

/-- The clap argument group of the `pass_env_var` option (src/main.rs
line 35). -/
def pass_env_var_group : String := "pass"

/-- The clap argument group of the `pass_file` option (src/main.rs
line 39). -/
def pass_file_group : String := "passphrase"

/-- Modelled from the spec: argument parsing is a collaborator (clap,
outside this repository).  Two optional arguments of a clap command
conflict — supplying both in one invocation is rejected — exactly when
they are placed in the same argument group; an argument alone in its
group conflicts with nothing.  The group names are the ones the code
assigns. -/
def cli_parse_rejects (env_supplied file_supplied : Bool) : Bool :=
  env_supplied && file_supplied && (pass_env_var_group == pass_file_group)

/-- The parsed command line (src/main.rs lines 20-41), paths embedded as
strings. -/
structure Cli where
  input : String
  output : String
  key : String
  pass_env_var : Option String
  pass_file : Option String
deriving Repr, DecidableEq

/-- Observable top-level effects of `main`, in program order:
`read_pem_key_file` on the key path, the wait message, `File::create` on
the output path, and the two result prints. -/
inductive MainEvent where
  | readKey (path : String) (ps : PassphraseSource)
  | printWait
  | createOutput (path : String)
  | printProps (p : String)
  | printMetaSize (m : Nat)
deriving Repr, DecidableEq

/-- Embedding of `main` (src/main.rs lines 102-137): choose the
passphrase source, load the key (`read_pem_key_file` is the external key
loader, modelled as an arbitrary function returning `none` on failure —
the `KeyError` case), and only after the key loaded successfully print
the wait message, create the output file and run `sign_payload`,
printing the properties and metadata size on success.  Returns the event
trace and whether `main` succeeded. -/
def main_run (cli : Cli)
    (read_pem_key_file : String → PassphraseSource → Option RsaPrivateKey)
    (W : PayloadWriter) (chunk : Nat) (extCancel : Nat → Bool)
    (header : PayloadHeader) (src : List Nat) : List MainEvent × Bool :=
  let ps := passphrase_source cli.pass_env_var cli.pass_file cli.key
  match read_pem_key_file cli.key ps with
  | none => ([MainEvent.readKey cli.key ps], false)
  | some key =>
    let r := sign_payload_run W chunk extCancel header src key
    match r.result with
    | Except.error _ =>
      ([MainEvent.readKey cli.key ps, MainEvent.printWait,
        MainEvent.createOutput cli.output], false)
    | Except.ok pm =>
      ([MainEvent.readKey cli.key ps, MainEvent.printWait,
        MainEvent.createOutput cli.output, MainEvent.printProps pm.1,
        MainEvent.printMetaSize pm.2], true)

/-! Concrete fixtures used by witnesses and counterexamples: a writer
whose serialization components are trivial, a two-partition container in
the shape of the spec's end-to-end scenario, and a key. -/

/-- A concrete writer model for evaluation: empty header and signature
serialization, empty properties, zero metadata size. -/
def W0 : PayloadWriter :=
  ⟨fun _ _ => [], fun _ _ => [], fun _ _ _ => "", fun _ _ => 0⟩

/-- A concrete container header: partition "boot" with one data-bearing
operation (offset 0, length 10) and partition "vendor" with one
zero/discard operation. -/
def header0 : PayloadHeader :=
  ⟨0, ⟨[⟨"boot", [⟨some 0, some 10⟩]⟩, ⟨"vendor", [⟨none, none⟩]⟩]⟩⟩

/-- Ten bytes of source blob data for `header0`. -/
def src0 : List Nat := [65, 65, 65, 65, 65, 65, 65, 65, 65, 65]

/-- A concrete key. -/
def key0 : RsaPrivateKey := ⟨7⟩

/-! Helper lemmas about the copy primitive and the operation loop. -/

/-- With an unset cancellation token and all requested bytes available,
the copy primitive returns exactly the requested slice of the source. -/
theorem copy_n_go_false_ok (chunk : Nat) (src : List Nat) :
    ∀ (n pos i : Nat), pos + n ≤ src.length →
      copy_n_go chunk fresh_token src pos n i = ((src.drop pos).take n, none) := by
  intro n
  induction n with
  | zero => intro pos i _; simp [copy_n_go]
  | succ m ih =>
    intro pos i h
    have hp : pos < src.length := by omega
    have hg : src.get? pos = some src[pos] := by
      simp [List.get?_eq_getElem?, List.getElem?_eq_getElem hp]
    rw [copy_n_go]
    simp only [fresh_token, Bool.and_false, Bool.false_eq_true, if_neg, hg,
      ih (pos + 1) (i + 1) (by omega)]
    rw [List.drop_eq_getElem_cons hp, List.take_succ_cons]
    simp

/-- With an unset cancellation token, the copy primitive never reports
cancellation. -/
theorem copy_n_go_false_not_cancelled (chunk : Nat) (src : List Nat) :
    ∀ (n pos i : Nat),
      (copy_n_go chunk fresh_token src pos n i).2 ≠ some SignError.cancelled := by
  intro n
  induction n with
  | zero => intro pos i; simp [copy_n_go]
  | succ m ih =>
    intro pos i
    rw [copy_n_go]
    simp only [fresh_token, Bool.and_false, Bool.false_eq_true, if_neg]
    cases src.get? pos with
    | none => simp
    | some b => simpa using ih (pos + 1) (i + 1)

/-- A processing step never reports cancellation, because the token it
hands to the copy primitive is freshly created and unset. -/
theorem processOp_not_cancelled (chunk : Nat) (src : List Nat) (blob pi oi cursor : Nat)
    (op : InstallOperation) :
    (processOp chunk src blob pi oi op cursor).err ≠ some SignError.cancelled := by
  rw [processOp]
  cases op.data_length with
  | none => simp
  | some L =>
    cases resolve_offset op.data_offset blob with
    | none => simp
    | some o => simpa [copy_n] using copy_n_go_false_not_cancelled chunk src L o 0

/-- The operation loop never reports cancellation. -/
theorem runOps_not_cancelled (chunk : Nat) (src : List Nat) (blob : Nat) :
    ∀ (l : List (Nat × Nat × String × InstallOperation)) (cursor : Nat),
      (runOps chunk src blob l cursor).err ≠ some SignError.cancelled := by
  intro l
  induction l with
  | nil => intro cursor; simp [runOps]
  | cons hd tl ih =>
    intro cursor
    obtain ⟨pi, oi, nm, op⟩ := hd
    rw [runOps]
    cases he : (processOp chunk src blob pi oi op cursor).err with
    | none => simpa using ih (processOp chunk src blob pi oi op cursor).cursor
    | some e =>
      have := processOp_not_cancelled chunk src blob pi oi cursor op
      rw [he] at this
      simpa using fun hc => this (by rw [hc])

/-- Splitting the operation loop at a successful prefix: the run over the
concatenation is the prefix's effects and bytes followed by the tail's,
the tail starting from the prefix's final cursor. -/
theorem runOps_append_ok (chunk : Nat) (src : List Nat) (blob : Nat)
    (l1 l2 : List (Nat × Nat × String × InstallOperation)) :
    ∀ (c : Nat), (runOps chunk src blob l1 c).err = none →
      runOps chunk src blob (l1 ++ l2) c =
        ⟨(runOps chunk src blob l1 c).events ++
            (runOps chunk src blob l2 (runOps chunk src blob l1 c).cursor).events,
          (runOps chunk src blob l1 c).written ++
            (runOps chunk src blob l2 (runOps chunk src blob l1 c).cursor).written,
          (runOps chunk src blob l2 (runOps chunk src blob l1 c).cursor).cursor,
          (runOps chunk src blob l2 (runOps chunk src blob l1 c).cursor).err⟩ := by
  induction l1 with
  | nil => intro c _; simp [runOps]
  | cons hd tl ih =>
    intro c h
    obtain ⟨pi, oi, nm, op⟩ := hd
    rw [runOps] at h ⊢
    cases he : (processOp chunk src blob pi oi op c).err with
    | some e => rw [he] at h; simp at h
    | none =>
      rw [he] at h
      simp only at h
      rw [List.cons_append, runOps, he]
      simp only [ih (processOp chunk src blob pi oi op c).cursor h, runOps, he,
        List.append_assoc]

/-- All operations of a manifest, partitions in order, operations within
a partition in order. -/
def DeltaArchiveManifest.allOps (m : DeltaArchiveManifest) : List InstallOperation :=
  (m.partitions.map PartitionUpdate.operations).flatten

/-- An event is harmless for the input file when it is not a write to or
truncation of the source, and any open of the source is read-only. -/
def preserves_input : Event → Bool
  | Event.openSource m => m == FileMode.readOnly
  | Event.writeSourceBytes _ _ => false
  | Event.truncateSource => false
  | Event.seekSource _ => true
  | Event.writeOutput _ => true

/-- Whether a top-level effect of `main` creates or opens the output
file. -/
def opens_output : MainEvent → Bool
  | MainEvent.createOutput _ => true
  | _ => false

/-- A container whose only operation declares a length but no offset. -/
def headerBad : PayloadHeader := ⟨0, ⟨[⟨"boot", [⟨none, some 5⟩]⟩]⟩⟩

/-- A container whose only operation has an offset that overflows u64
when the blob offset is added. -/
def headerOv : PayloadHeader := ⟨1, ⟨[⟨"boot", [⟨some U64_MAX, some 4⟩]⟩]⟩⟩

/-- A concrete command line with neither passphrase option supplied. -/
def cli0 : Cli := ⟨"payload.bin", "signed.bin", "key.pem", none, none⟩

/-- When the traversal reaches an operation whose processing step fails
without emitting any effect, `sign_payload` returns that error, the run's
trace is exactly the open of the input followed by the successful
prefix's trace, and the bytes handed to the writer are exactly the
prefix's. -/
theorem sign_payload_stops (W : PayloadWriter) (chunk : Nat) (extCancel : Nat → Bool)
    (header : PayloadHeader) (src : List Nat) (key : RsaPrivateKey)
    (l1 l2 : List (Nat × Nat × String × InstallOperation))
    (pi oi : Nat) (nm : String) (op : InstallOperation) (e : SignError)
    (hsplit : flatOps header.manifest = l1 ++ (pi, oi, nm, op) :: l2)
    (hreach : (runOps chunk src header.blob_offset l1 0).err = none)
    (hstep : processOp chunk src header.blob_offset pi oi op
        (runOps chunk src header.blob_offset l1 0).cursor =
      ⟨[], [], (runOps chunk src header.blob_offset l1 0).cursor, some e⟩) :
    sign_payload W chunk extCancel header src key = Except.error e ∧
    (sign_payload_run W chunk extCancel header src key).events =
      Event.openSource FileMode.readOnly :: (runOps chunk src header.blob_offset l1 0).events ∧
    (sign_payload_run W chunk extCancel header src key).written =
      (runOps chunk src header.blob_offset l1 0).written := by
  have htail : runOps chunk src header.blob_offset ((pi, oi, nm, op) :: l2)
      (runOps chunk src header.blob_offset l1 0).cursor =
      ⟨[], [], (runOps chunk src header.blob_offset l1 0).cursor, some e⟩ := by
    rw [runOps, hstep]
  have hall : runOps chunk src header.blob_offset (flatOps header.manifest) 0 =
      ⟨(runOps chunk src header.blob_offset l1 0).events,
        (runOps chunk src header.blob_offset l1 0).written,
        (runOps chunk src header.blob_offset l1 0).cursor, some e⟩ := by
    rw [hsplit, runOps_append_ok chunk src header.blob_offset l1 _ 0 hreach, htail]
    simp
  refine ⟨?_, ?_, ?_⟩ <;> simp [sign_payload, sign_payload_run, hall]

/-- Events a processing step emits never touch the source file other
than seeking it, and never open anything. -/
theorem processOp_events_preserve (chunk : Nat) (src : List Nat)
    (blob pi oi cursor : Nat) (op : InstallOperation) :
    ((processOp chunk src blob pi oi op cursor).events.all preserves_input) = true := by
  rw [processOp]
  cases hL : op.data_length with
  | none => rfl
  | some L =>
    cases hO : resolve_offset op.data_offset blob with
    | none => rfl
    | some o => rfl

/-- Events of the whole operation loop never write to or truncate the
source. -/
theorem runOps_events_preserve (chunk : Nat) (src : List Nat) (blob : Nat) :
    ∀ (l : List (Nat × Nat × String × InstallOperation)) (cursor : Nat),
      ((runOps chunk src blob l cursor).events.all preserves_input) = true := by
  intro l
  induction l with
  | nil => intro cursor; rfl
  | cons hd tl ih =>
    intro cursor
    obtain ⟨pi, oi, nm, op⟩ := hd
    rw [runOps]
    cases he : (processOp chunk src blob pi oi op cursor).err with
    | some e => simpa using processOp_events_preserve chunk src blob pi oi cursor op
    | none =>
      simp only [List.all_append, Bool.and_eq_true]
      exact ⟨processOp_events_preserve chunk src blob pi oi cursor op,
        ih (processOp chunk src blob pi oi op cursor).cursor⟩

/-! Claim theorems. -/

/-- C1 counterexample: a run whose external canceller requests
cancellation from the very start — before the ten-byte copy, which takes
more than one four-byte chunk, completes — still finishes successfully
instead of failing with the cancellation error, because the token the
copy loop polls is created freshly inside `sign_payload` and no external
setting can reach it. -/
theorem C1_cancel_requested_run_still_completes :
    4 < 10 ∧
    sign_payload W0 4 (fun _ => true) header0 src0 key0 = Except.ok ("", 0) :=
  ⟨by decide, rfl⟩

/-- C1 (amended): no external cancellation request ever makes
`sign_payload` fail with the cancellation error, because the token it
hands to the copy primitive is freshly created, unset, and unshared;
the copy primitive itself does abort immediately with the cancellation
error whenever the token it is given is set. -/
theorem C1_cancellation_unreachable (W : PayloadWriter) (chunk : Nat)
    (extCancel : Nat → Bool) (header : PayloadHeader) (src : List Nat)
    (key : RsaPrivateKey) :
    sign_payload W chunk extCancel header src key ≠
      Except.error SignError.cancelled ∧
    (∀ (src' : List Nat) (pos n : Nat), 0 < n →
      copy_n chunk (fun _ => true) src' pos n = ([], some SignError.cancelled)) := by
  constructor
  · cases he : (runOps chunk src header.blob_offset (flatOps header.manifest) 0).err with
    | none => simp [sign_payload, sign_payload_run, he]
    | some e =>
      have hne := runOps_not_cancelled chunk src header.blob_offset (flatOps header.manifest) 0
      rw [he] at hne
      simp only [sign_payload, sign_payload_run, he, ne_eq, Except.error.injEq]
      intro hc
      exact hne (by rw [hc])
  · intro src' pos n hn
    cases n with
    | zero => omega
    | succ m => rw [copy_n, copy_n_go]; simp

/-- C1 witness: the amended theorem at the concrete fixtures. -/
theorem C1_cancellation_unreachable_witness :
    sign_payload W0 4 fresh_token header0 src0 key0 ≠
      Except.error SignError.cancelled ∧
    copy_n 4 (fun _ => true) src0 0 10 = ([], some SignError.cancelled) :=
  ⟨(C1_cancellation_unreachable W0 4 fresh_token header0 src0 key0).1,
   (C1_cancellation_unreachable W0 4 fresh_token header0 src0 key0).2 src0 0 10
     (by decide)⟩

/-- C2 (code bug, evaluated at the failing input): the two passphrase
options live in distinct clap argument groups, so supplying both in one
invocation is accepted by argument parsing rather than rejected, and the
environment-variable option silently wins. -/
theorem C2_both_passphrase_options_accepted :
    cli_parse_rejects true true = false ∧
    pass_env_var_group ≠ pass_file_group ∧
    passphrase_source (some "KEYPASS") (some "pw.txt") "key.pem" =
      PassphraseSource.envVar "KEYPASS" :=
  ⟨rfl, by decide, rfl⟩

/-- C3: when the traversal reaches an operation that declares a data
length but no data offset, `sign_payload` fails with the missing-offset
error for that operation's indices; the run's effect trace is exactly
the successful prefix's — no seek and no copy for the failing operation —
and the bytes handed to the writer are exactly the prefix's, so no byte
of that operation or of any later operation is written. -/
theorem C3_missing_offset_detected_before_write (W : PayloadWriter) (chunk : Nat)
    (extCancel : Nat → Bool) (header : PayloadHeader) (src : List Nat)
    (key : RsaPrivateKey)
    (l1 l2 : List (Nat × Nat × String × InstallOperation))
    (pi oi : Nat) (nm : String) (op : InstallOperation) (L : Nat)
    (hsplit : flatOps header.manifest = l1 ++ (pi, oi, nm, op) :: l2)
    (hlen : op.data_length = some L)
    (hoff : op.data_offset = none)
    (hreach : (runOps chunk src header.blob_offset l1 0).err = none) :
    sign_payload W chunk extCancel header src key =
      Except.error (SignError.missingOffset pi oi) ∧
    (sign_payload_run W chunk extCancel header src key).events =
      Event.openSource FileMode.readOnly ::
        (runOps chunk src header.blob_offset l1 0).events ∧
    (sign_payload_run W chunk extCancel header src key).written =
      (runOps chunk src header.blob_offset l1 0).written := by
  refine sign_payload_stops W chunk extCancel header src key l1 l2 pi oi nm op _
    hsplit hreach ?_
  simp [processOp, hlen, hoff, resolve_offset]

/-- C3 witness: a container whose single operation has a length and no
offset fails with the missing-offset error for partition 0, operation 0,
with an effect trace holding nothing but the read-only open. -/
theorem C3_missing_offset_witness :
    sign_payload W0 4 fresh_token headerBad src0 key0 =
      Except.error (SignError.missingOffset 0 0) ∧
    (sign_payload_run W0 4 fresh_token headerBad src0 key0).events =
      Event.openSource FileMode.readOnly ::
        (runOps 4 src0 headerBad.blob_offset [] 0).events ∧
    (sign_payload_run W0 4 fresh_token headerBad src0 key0).written =
      (runOps 4 src0 headerBad.blob_offset [] 0).written :=
  C3_missing_offset_detected_before_write W0 4 fresh_token headerBad src0 key0
    [] [] 0 0 "boot" ⟨none, some 5⟩ 5 rfl rfl rfl rfl

/-- C4: a data-bearing operation with offset `o` and length `L` is
processed by an explicit seek to the absolute offset `o + blob_offset`
followed by a copy of exactly `L` bytes from that position — and the
result does not depend on the incoming cursor (the binder `cursor` is
arbitrary and absent from the result), so no reliance is placed on the
position left by a previous operation. -/
theorem C4_copydata_explicit_seek_exact_copy (chunk : Nat) (src : List Nat)
    (blob pi oi cursor o L : Nat) (op : InstallOperation)
    (hoff : op.data_offset = some o) (hlen : op.data_length = some L)
    (hrange : o + blob ≤ U64_MAX) (havail : o + blob + L ≤ src.length) :
    processOp chunk src blob pi oi op cursor =
      ⟨[Event.seekSource (o + blob),
        Event.writeOutput ((src.drop (o + blob)).take L)],
        (src.drop (o + blob)).take L, o + blob + L, none⟩ ∧
    ((src.drop (o + blob)).take L).length = L := by
  have hcopy : copy_n chunk fresh_token src (o + blob) L =
      ((src.drop (o + blob)).take L, none) := by
    rw [copy_n]
    exact copy_n_go_false_ok chunk src L (o + blob) 0 (by omega)
  have hlen2 : ((src.drop (o + blob)).take L).length = L := by
    rw [List.length_take, List.length_drop]; omega
  refine ⟨?_, hlen2⟩
  simp [processOp, hlen, hoff, resolve_offset, hrange, hcopy, hlen2]

/-- C4 witness: the boot operation of the concrete container, with an
arbitrary incoming cursor position 999, seeks to 0 and copies all ten
bytes. -/
theorem C4_copydata_witness :
    processOp 4 src0 0 0 0 ⟨some 0, some 10⟩ 999 =
      ⟨[Event.seekSource (0 + 0), Event.writeOutput ((src0.drop (0 + 0)).take 10)],
        (src0.drop (0 + 0)).take 10, 0 + 0 + 10, none⟩ ∧
    ((src0.drop (0 + 0)).take 10).length = 10 :=
  C4_copydata_explicit_seek_exact_copy 4 src0 0 0 0 999 0 10 ⟨some 0, some 10⟩
    rfl rfl (by decide) (by decide)

/-- C5: an operation with no declared data length is processed with no
effect at all — no seek, no read, source cursor unchanged, no bytes
written — the loop continues past it to the remaining operations, and
the operation is still present in the output manifest the writer
serializes from the same cloned header. -/
theorem C5_zero_discard_frame (chunk : Nat) (src : List Nat)
    (blob pi oi cursor : Nat) (nm : String) (op : InstallOperation)
    (rest : List (Nat × Nat × String × InstallOperation)) (header : PayloadHeader)
    (hlen : op.data_length = none) :
    processOp chunk src blob pi oi op cursor = ⟨[], [], cursor, none⟩ ∧
    runOps chunk src blob ((pi, oi, nm, op) :: rest) cursor =
      runOps chunk src blob rest cursor ∧
    (op ∈ header.manifest.allOps → op ∈ (output_manifest header).allOps) := by
  have hstep : processOp chunk src blob pi oi op cursor = ⟨[], [], cursor, none⟩ := by
    simp [processOp, hlen]
  refine ⟨hstep, ?_, fun h => h⟩
  rw [runOps, hstep]
  simp

/-- C5 witness: the vendor partition's zero/discard operation of the
concrete container, entered at cursor 10. -/
theorem C5_zero_discard_witness :
    processOp 4 src0 0 1 0 ⟨none, none⟩ 10 = ⟨[], [], 10, none⟩ ∧
    runOps 4 src0 0 [(1, 0, "vendor", ⟨none, none⟩)] 10 = runOps 4 src0 0 [] 10 ∧
    ((⟨none, none⟩ : InstallOperation) ∈ header0.manifest.allOps →
      (⟨none, none⟩ : InstallOperation) ∈ (output_manifest header0).allOps) :=
  C5_zero_discard_frame 4 src0 0 1 0 10 "vendor" ⟨none, none⟩ [] header0 rfl

/-- C6: when the key loader fails, `main` stops with only the key-read
effect performed: the output file is never created, because
`read_pem_key_file` runs before `File::create` on the output path. -/
theorem C6_key_failure_before_output (cli : Cli)
    (read_pem_key_file : String → PassphraseSource → Option RsaPrivateKey)
    (W : PayloadWriter) (chunk : Nat) (extCancel : Nat → Bool)
    (header : PayloadHeader) (src : List Nat)
    (hkey : read_pem_key_file cli.key
      (passphrase_source cli.pass_env_var cli.pass_file cli.key) = none) :
    main_run cli read_pem_key_file W chunk extCancel header src =
      ([MainEvent.readKey cli.key
          (passphrase_source cli.pass_env_var cli.pass_file cli.key)], false) ∧
    ((main_run cli read_pem_key_file W chunk extCancel header src).1.all
      fun e => ! opens_output e) = true := by
  have h1 : main_run cli read_pem_key_file W chunk extCancel header src =
      ([MainEvent.readKey cli.key
          (passphrase_source cli.pass_env_var cli.pass_file cli.key)], false) := by
    simp [main_run, hkey]
  exact ⟨h1, by rw [h1]; rfl⟩

/-- C6 witness: a loader that always fails, on the concrete command
line. -/
theorem C6_key_failure_witness :
    main_run cli0 (fun _ _ => none) W0 4 fresh_token header0 src0 =
      ([MainEvent.readKey cli0.key
          (passphrase_source cli0.pass_env_var cli0.pass_file cli0.key)], false) ∧
    ((main_run cli0 (fun _ _ => none) W0 4 fresh_token header0 src0).1.all
      fun e => ! opens_output e) = true :=
  C6_key_failure_before_output cli0 (fun _ _ => none) W0 4 fresh_token header0
    src0 rfl

/-- C7: two runs over the same container and key — differing only in the
external environment, here the external cancellation request schedule,
the model's only run-to-run varying input — produce byte-identical
destination streams and the same properties string and metadata size;
the writer's serialization and signature components are functions of the
header, key and blob bytes, which is the claim's assumption that the
signature scheme is deterministic. -/
theorem C7_deterministic_runs (W : PayloadWriter) (chunk : Nat)
    (ext1 ext2 : Nat → Bool) (header : PayloadHeader) (src : List Nat)
    (key : RsaPrivateKey) :
    (sign_payload_run W chunk ext1 header src key).out =
      (sign_payload_run W chunk ext2 header src key).out ∧
    (sign_payload_run W chunk ext1 header src key).result =
      (sign_payload_run W chunk ext2 header src key).result :=
  ⟨rfl, rfl⟩

/-- C8: an operation whose declared offset plus the blob offset
overflows u64 makes `checked_add` yield nothing, so the run fails with
the very same missing-offset error, with no seek and no copy for the
operation and nothing written for it or for any later operation —
instead of wrapping around to a low absolute offset. -/
theorem C8_overflow_same_missing_offset_error (W : PayloadWriter) (chunk : Nat)
    (extCancel : Nat → Bool) (header : PayloadHeader) (src : List Nat)
    (key : RsaPrivateKey)
    (l1 l2 : List (Nat × Nat × String × InstallOperation))
    (pi oi : Nat) (nm : String) (op : InstallOperation) (o L : Nat)
    (hsplit : flatOps header.manifest = l1 ++ (pi, oi, nm, op) :: l2)
    (hoff : op.data_offset = some o) (hlen : op.data_length = some L)
    (hover : U64_MAX < o + header.blob_offset)
    (hreach : (runOps chunk src header.blob_offset l1 0).err = none) :
    sign_payload W chunk extCancel header src key =
      Except.error (SignError.missingOffset pi oi) ∧
    (sign_payload_run W chunk extCancel header src key).events =
      Event.openSource FileMode.readOnly ::
        (runOps chunk src header.blob_offset l1 0).events ∧
    (sign_payload_run W chunk extCancel header src key).written =
      (runOps chunk src header.blob_offset l1 0).written := by
  refine sign_payload_stops W chunk extCancel header src key l1 l2 pi oi nm op _
    hsplit hreach ?_
  have hno : ¬ o + header.blob_offset ≤ U64_MAX := by omega
  simp [processOp, hlen, hoff, resolve_offset, hno]

/-- C8 witness: a container with blob offset 1 and an operation at
offset u64::MAX, whose sum overflows. -/
theorem C8_overflow_witness :
    sign_payload W0 4 fresh_token headerOv src0 key0 =
      Except.error (SignError.missingOffset 0 0) ∧
    (sign_payload_run W0 4 fresh_token headerOv src0 key0).events =
      Event.openSource FileMode.readOnly ::
        (runOps 4 src0 headerOv.blob_offset [] 0).events ∧
    (sign_payload_run W0 4 fresh_token headerOv src0 key0).written =
      (runOps 4 src0 headerOv.blob_offset [] 0).written :=
  C8_overflow_same_missing_offset_error W0 4 fresh_token headerOv src0 key0
    [] [] 0 0 "boot" ⟨some U64_MAX, some 4⟩ U64_MAX 4 rfl rfl rfl
    (by simp [headerOv, U64_MAX]) rfl

/-- C9: when both passphrase options are supplied the environment
variable wins and the passphrase file is ignored, and the interactive
prompt is chosen only when neither option is supplied. -/
theorem C9_env_var_precedence (pass_file : Option String) (key v : String) :
    passphrase_source (some v) pass_file key = PassphraseSource.envVar v ∧
    (∀ (ev pf : Option String) (s : String),
      passphrase_source ev pf key = PassphraseSource.prompt s →
        ev = none ∧ pf = none) := by
  refine ⟨rfl, ?_⟩
  intro ev pf s h
  cases ev with
  | some w => simp [passphrase_source] at h
  | none =>
    cases pf with
    | some p => simp [passphrase_source] at h
    | none => exact ⟨rfl, rfl⟩

/-- C9 witness: both options supplied yields the environment variable
source, and the prompt case at concrete inputs forces both options
absent. -/
theorem C9_env_var_precedence_witness :
    passphrase_source (some "KEYPASS2") (some "pw2.txt") "key2.pem" =
      PassphraseSource.envVar "KEYPASS2" ∧
    ((none : Option String) = none ∧ (none : Option String) = none) :=
  ⟨(C9_env_var_precedence (some "pw2.txt") "key2.pem" "KEYPASS2").1,
   (C9_env_var_precedence (some "pw2.txt") "key2.pem" "KEYPASS2").2 none none
     ("Enter passphrase for \"key2.pem\": ") rfl⟩

/-- C10: every effect of any `sign_payload` run, successful or failed,
leaves the input container intact: the source is opened read-only, and
the trace contains no write to and no truncation of the source. -/
theorem C10_input_never_written (W : PayloadWriter) (chunk : Nat)
    (extCancel : Nat → Bool) (header : PayloadHeader) (src : List Nat)
    (key : RsaPrivateKey) :
    ((sign_payload_run W chunk extCancel header src key).events.all
      preserves_input) = true := by
  have h := runOps_events_preserve chunk src header.blob_offset
    (flatOps header.manifest) 0
  cases he : (runOps chunk src header.blob_offset (flatOps header.manifest) 0).err with
  | none => simpa [sign_payload_run, he, preserves_input] using h
  | some e => simpa [sign_payload_run, he, preserves_input] using h

end AVBPayloadSigner
